import Mathlib

/-!
Verification of the PNG chunk codec (`src/chunk_type.rs`, `src/chunk.rs`).

Bytes are modelled as `Nat` values below 256 where the range matters; byte
buffers are `List Nat`.  Fallible Rust functions return `Except`; functions
that can panic return `Option` (with `none` for a panic / abort).
-/

namespace Pngme

set_option maxRecDepth 100000

/-- Bitwise exclusive-or of the low `k` bits of two naturals, by structural
recursion on `k`.  `xorBits 32 a b` is the `u32` operator `^` for
`a, b < 2^32`. -/
def xorBits : Nat → Nat → Nat → Nat
  | 0, _, _ => 0
  | k + 1, a, b =>
      (if (a % 2 == 1) != (b % 2 == 1) then 1 else 0) + 2 * xorBits k (a / 2) (b / 2)

/-- The 32-bit `^` operator of the Rust source. -/
def xor32 (a b : Nat) : Nat := xorBits 32 a b

/-- Reflected polynomial of CRC-32/ISO-HDLC (0x04C11DB7 bit-reversed). -/
def CRC32_POLY : Nat := 0xEDB88320

/-- One bit step of the reflected CRC-32 register update. -/
def crc32_bit (r : Nat) : Nat :=
  if r % 2 = 1 then xor32 (r / 2) CRC32_POLY else r / 2

/-- One byte step: xor the byte into the register, then eight bit steps. -/
def crc32_byte (r b : Nat) : Nat :=
  crc32_bit (crc32_bit (crc32_bit (crc32_bit
    (crc32_bit (crc32_bit (crc32_bit (crc32_bit (xor32 r (b % 256)))))))))

/-- Embedding of the external `crc` crate's
`Crc::<u32>::new(&CRC_32_ISO_HDLC).checksum` used at `src/chunk.rs` lines
32 and 93: the CRC-32/ISO-HDLC algorithm (reflected input and output,
initial register 0xFFFFFFFF, final xor 0xFFFFFFFF).  The algorithm's
published check value, `crc32` of the ASCII bytes of "123456789" being
0xCBF43926, is proved below. -/
def crc32 (data : List Nat) : Nat :=
  xor32 (data.foldl crc32_byte 0xFFFFFFFF) 0xFFFFFFFF

/-- `u8::is_ascii_alphabetic`: the byte is in 65–90 (A–Z) or 97–122 (a–z). -/
def is_ascii_alphabetic (b : Nat) : Bool :=
  (65 ≤ b && b ≤ 90) || (97 ≤ b && b ≤ 122)

/-- The byte-by-byte loop of `TryFrom<[u8; 4]> for ChunkType` and of
`FromStr for ChunkType`: every byte passes `is_ascii_alphabetic`. -/
def all_ascii_alphabetic : List Nat → Bool
  | [] => true
  | b :: rest => is_ascii_alphabetic b && all_ascii_alphabetic rest

/-- Error type of `src/chunk_type.rs` (`ChunkTypeErrors`). -/
inductive ChunkTypeErrors
  | IsNotAlphabetic
deriving DecidableEq

/-- `ChunkType` of `src/chunk_type.rs`: a 4-byte code (`[u8; 4]`),
modelled as a list of naturals; every constructor yields length 4. -/
structure ChunkType where
  code : List Nat
deriving DecidableEq

/-- `ChunkType::bytes`: returns the stored code. -/
def ChunkType.bytes (t : ChunkType) : List Nat := t.code

/-- `impl TryFrom<[u8; 4]> for ChunkType` (lines 66–77): loops over the four
bytes, returns `Err(IsNotAlphabetic)` at the first non-alphabetic byte,
otherwise wraps the bytes unchanged. -/
def ChunkType.try_from (value : List Nat) : Except ChunkTypeErrors ChunkType :=
  if all_ascii_alphabetic value then .ok ⟨value⟩ else .error .IsNotAlphabetic

/-- `impl FromStr for ChunkType` (lines 79–92).  The input is the string's
byte representation.  The source slices `s[0..4]` before converting; on a
slice of fewer than 4 bytes that indexing panics (modelled as `none`).
Otherwise the first four bytes are checked with the same alphabetic loop
(the `try_into` on a 4-byte slice always succeeds). -/
def ChunkType.from_str (s : List Nat) : Option (Except ChunkTypeErrors ChunkType) :=
  if 4 ≤ s.length then
    let s4 := s.take 4
    if all_ascii_alphabetic s4 then some (.ok ⟨s4⟩) else some (.error .IsNotAlphabetic)
  else
    none

/-- `ChunkType::is_critical` (lines 32–37): `(code[0] >> 5) & 1 == 0`.
On `Nat`, `>> 5` is division by 32 and `& 1` is `% 2`. -/
def ChunkType.is_critical (t : ChunkType) : Bool :=
  let byte := t.code.getD 0 0
  let bit := byte / 32 % 2
  bit == 0

/-- `ChunkType::is_public` (lines 39–44): `(code[1] >> 5) & 1 == 0`. -/
def ChunkType.is_public (t : ChunkType) : Bool :=
  let byte := t.code.getD 1 0
  let bit := byte / 32 % 2
  bit == 0

/-- `ChunkType::is_reserved_bit_valid` (lines 46–51): `(code[2] >> 5) & 1 == 0`. -/
def ChunkType.is_reserved_bit_valid (t : ChunkType) : Bool :=
  let byte := t.code.getD 2 0
  let bit := byte / 32 % 2
  bit == 0

/-- `ChunkType::is_safe_to_copy` (lines 53–58): `(code[3] >> 5) & 1 == 1`. -/
def ChunkType.is_safe_to_copy (t : ChunkType) : Bool :=
  let byte := t.code.getD 3 0
  let bit := byte / 32 % 2
  bit == 1

/-- `ChunkType::is_valid` (lines 60–62): delegates to `is_reserved_bit_valid`. -/
def ChunkType.is_valid (t : ChunkType) : Bool :=
  t.is_reserved_bit_valid

/-- Error type of `src/chunk.rs` (`ChunkError`). -/
inductive ChunkError
  | UnreadableByte
deriving DecidableEq

/-- `Chunk` of `src/chunk.rs` (lines 24–29). -/
structure Chunk where
  chunk_type : ChunkType
  chunk_data : List Nat
  length : Nat
  crc : Nat
deriving DecidableEq

/-- `Chunk::get_checksum` (lines 90–95): extends the data with the type code
(data first, type code appended) and takes the CRC-32/ISO-HDLC checksum. -/
def Chunk.get_checksum (chunk_data : List Nat) (chunk_type_code : List Nat) : Nat :=
  crc32 (chunk_data ++ chunk_type_code)

/-- `Chunk::new` (lines 34–46): `length` is the byte count of the data
(`bytes().count()`, converted with `try_into().unwrap()`, which aborts for
counts of 2^32 or more — modelled as `none`); `crc` is `get_checksum` of the
data and the type code. -/
def Chunk.new (chunk_type : ChunkType) (chunk_data : List Nat) : Option Chunk :=
  if chunk_data.length < 4294967296 then
    some { chunk_type := chunk_type
           chunk_data := chunk_data
           length := chunk_data.length
           crc := Chunk.get_checksum chunk_data chunk_type.bytes }
  else
    none

/-- `Chunk::data_as_string` (lines 64–75): iterates `io::Read::bytes` over
the payload slice and pushes each byte `as char`.  Reading from an in-memory
slice yields `Ok` for every byte and `u8 as char` is total, so the error arm
(`ChunkError`) is unreachable: every byte becomes the Unicode scalar of equal
value. -/
def Chunk.data_as_string (c : Chunk) : Except ChunkError String :=
  .ok (String.mk (c.chunk_data.map (fun b => Char.ofNat (b % 256))))

/-- `u32::to_be_bytes`: big-endian byte decomposition of a 32-bit value. -/
def u32_to_be_bytes (n : Nat) : List Nat :=
  [n / 16777216 % 256, n / 65536 % 256, n / 256 % 256, n % 256]

/-- `u32::from_be_bytes`: big-endian recomposition of four bytes. -/
def be_bytes_to_u32 (bs : List Nat) : Nat :=
  bs.foldl (fun acc b => acc * 256 + b % 256) 0

/-- `Chunk::as_bytes` (lines 77–88): chains, in order, the big-endian bytes
of `length`, the type code, the data, and the big-endian bytes of `crc` into
one buffer. -/
def Chunk.as_bytes (c : Chunk) : List Nat :=
  u32_to_be_bytes c.length ++ c.chunk_type.bytes ++ c.chunk_data ++ u32_to_be_bytes c.crc

/-- Parse failures of §4.2 / §7 of the spec. -/
inductive FormatError
  | TooShort
  | NotAlphabetic
  | Truncated
  | ChecksumMismatch
deriving DecidableEq

/-- Modelled from the spec: `Chunk::try_from(&[u8])` — `parse` — is called by
the repository's tests but its implementation is not among the provided
source files.  Follows §4.2 steps 1–7: reject fewer than 12 bytes as
`TooShort`; read a big-endian length, then the 4-byte type code validated as
in `ChunkType::try_from` (propagating `NotAlphabetic`); reject a buffer with
fewer than `length` payload bytes plus 4 CRC bytes remaining as `Truncated`;
read the declared big-endian CRC and compare it with `get_checksum` over
payload then type code, rejecting a difference as `ChecksumMismatch`. -/
def Chunk.parse (buf : List Nat) : Except FormatError Chunk :=
  if buf.length < 12 then .error .TooShort
  else
    let length := be_bytes_to_u32 (buf.take 4)
    match ChunkType.try_from ((buf.drop 4).take 4) with
    | .error _ => .error .NotAlphabetic
    | .ok chunk_type =>
        let rest := buf.drop 8
        if rest.length < length + 4 then .error .Truncated
        else
          let payload := rest.take length
          let crc_declared := be_bytes_to_u32 ((rest.drop length).take 4)
          if crc_declared = Chunk.get_checksum payload chunk_type.bytes then
            .ok { chunk_type := chunk_type
                  chunk_data := payload
                  length := length
                  crc := crc_declared }
          else
            .error .ChecksumMismatch

/-- ASCII bytes of "This is where your secret message will be!" (42 bytes),
the payload of the repository's tests and of §8 of the spec. -/
def secret_message_bytes : List Nat :=
  [84, 104, 105, 115, 32, 105, 115, 32, 119, 104, 101, 114, 101, 32, 121, 111,
   117, 114, 32, 115, 101, 99, 114, 101, 116, 32, 109, 101, 115, 115, 97, 103,
   101, 32, 119, 105, 108, 108, 32, 98, 101, 33]

/-! Helper lemmas. -/

theorem xorBits_lt (k : Nat) : ∀ a b : Nat, xorBits k a b < 2 ^ k := by
  induction k with
  | zero => intro a b; simp [xorBits]
  | succ k ih =>
      intro a b
      have h := ih (a / 2) (b / 2)
      simp only [xorBits]
      split <;> [skip; skip] <;> (simp [Nat.pow_succ]; omega)

theorem xor32_lt (a b : Nat) : xor32 a b < 4294967296 := xorBits_lt 32 a b

theorem crc32_lt (data : List Nat) : crc32 data < 4294967296 := xor32_lt _ _

theorem is_ascii_alphabetic_iff (b : Nat) :
    is_ascii_alphabetic b = true ↔ (65 ≤ b ∧ b ≤ 90) ∨ (97 ≤ b ∧ b ≤ 122) := by
  simp [is_ascii_alphabetic]

theorem u32_to_be_bytes_len (n : Nat) : (u32_to_be_bytes n).length = 4 := rfl

theorem be_of_u32 (n : Nat) (h : n < 4294967296) :
    be_bytes_to_u32 (u32_to_be_bytes n) = n := by
  simp only [be_bytes_to_u32, u32_to_be_bytes, List.foldl]
  omega

theorem try_from_of_alpha (code : List Nat) (halpha : all_ascii_alphabetic code = true) :
    ChunkType.try_from code = Except.ok ⟨code⟩ := by
  simp [ChunkType.try_from, halpha]

theorem parse_decomposed (code d : List Nat) (declared : Nat)
    (hlen : code.length = 4)
    (halpha : all_ascii_alphabetic code = true)
    (hd : d.length < 4294967296) (hdecl : declared < 4294967296) :
    Chunk.parse (u32_to_be_bytes d.length ++ code ++ d ++ u32_to_be_bytes declared) =
      if declared = Chunk.get_checksum d code then
        Except.ok { chunk_type := ⟨code⟩
                    chunk_data := d
                    length := d.length
                    crc := declared }
      else
        Except.error FormatError.ChecksumMismatch := by
  set buf := u32_to_be_bytes d.length ++ code ++ d ++ u32_to_be_bytes declared with hbuf
  have e1 : buf = u32_to_be_bytes d.length ++ (code ++ (d ++ u32_to_be_bytes declared)) := by
    simp [hbuf, List.append_assoc]
  have e2 : buf = (u32_to_be_bytes d.length ++ code) ++ (d ++ u32_to_be_bytes declared) := by
    simp [hbuf, List.append_assoc]
  have hlen_buf : buf.length = 12 + d.length := by
    simp [hbuf, List.length_append, u32_to_be_bytes_len, hlen]
    omega
  have htake4 : buf.take 4 = u32_to_be_bytes d.length := by
    rw [e1]; exact List.take_left' rfl
  have htype : (buf.drop 4).take 4 = code := by
    rw [e1, List.drop_left' (show (u32_to_be_bytes d.length).length = 4 from rfl)]
    exact List.take_left' hlen
  have hdrop8 : buf.drop 8 = d ++ u32_to_be_bytes declared := by
    rw [e2]
    exact List.drop_left' (by simp [List.length_append, u32_to_be_bytes_len, hlen])
  have hrest_len : (d ++ u32_to_be_bytes declared).length = d.length + 4 := by
    simp [List.length_append, u32_to_be_bytes_len]
  have hpayload : (d ++ u32_to_be_bytes declared).take d.length = d :=
    List.take_left' rfl
  have hcrcbytes : ((d ++ u32_to_be_bytes declared).drop d.length).take 4 =
      u32_to_be_bytes declared := by
    rw [List.drop_left' (show d.length = d.length from rfl)]
    rfl
  unfold Chunk.parse
  rw [hlen_buf, if_neg (by omega), htake4, be_of_u32 _ hd, htype,
    try_from_of_alpha code halpha]
  simp only [hdrop8, hrest_len, hpayload, hcrcbytes, be_of_u32 _ hdecl,
    if_neg (by omega : ¬ d.length + 4 < d.length + 4), ChunkType.bytes]

theorem new_eq (t : ChunkType) (d : List Nat) (h : d.length < 4294967296) :
    Chunk.new t d = some { chunk_type := t
                           chunk_data := d
                           length := d.length
                           crc := Chunk.get_checksum d t.bytes } := by
  simp [Chunk.new, h]

theorem crc_reg_12 :
    List.foldl crc32_byte 4294967295
      [84, 104, 105, 115, 32, 105, 115, 32, 119, 104, 101, 114] = 136202608 := by
  decide

theorem crc_reg_24 :
    List.foldl crc32_byte 136202608
      [101, 32, 121, 111, 117, 114, 32, 115, 101, 99, 114, 101] = 4097506305 := by
  decide

theorem crc_reg_36 :
    List.foldl crc32_byte 4097506305
      [116, 32, 109, 101, 115, 115, 97, 103, 101, 32, 119, 105] = 1221204911 := by
  decide

theorem crc_reg_46 :
    List.foldl crc32_byte 1221204911
      [108, 108, 32, 98, 101, 33, 82, 117, 83, 116] = 802097848 := by
  decide

theorem crc_secret : crc32 (secret_message_bytes ++ [82, 117, 83, 116]) = 3492869447 := by
  have e : secret_message_bytes ++ [82, 117, 83, 116] =
      [84, 104, 105, 115, 32, 105, 115, 32, 119, 104, 101, 114] ++
        ([101, 32, 121, 111, 117, 114, 32, 115, 101, 99, 114, 101] ++
          ([116, 32, 109, 101, 115, 115, 97, 103, 101, 32, 119, 105] ++
            [108, 108, 32, 98, 101, 33, 82, 117, 83, 116])) := by
    rfl
  unfold crc32
  rw [e, List.foldl_append, List.foldl_append, List.foldl_append,
    crc_reg_12, crc_reg_24, crc_reg_36, crc_reg_46]
  decide

theorem all_alpha_iff (b0 b1 b2 b3 : Nat) :
    all_ascii_alphabetic [b0, b1, b2, b3] = true ↔
      (((65 ≤ b0 ∧ b0 ≤ 90) ∨ (97 ≤ b0 ∧ b0 ≤ 122)) ∧
       ((65 ≤ b1 ∧ b1 ≤ 90) ∨ (97 ≤ b1 ∧ b1 ≤ 122)) ∧
       ((65 ≤ b2 ∧ b2 ≤ 90) ∨ (97 ≤ b2 ∧ b2 ≤ 122)) ∧
       ((65 ≤ b3 ∧ b3 ≤ 90) ∨ (97 ≤ b3 ∧ b3 ≤ 122))) := by
  simp [all_ascii_alphabetic, is_ascii_alphabetic]

/-! Claim theorems. -/

/-- C1: for every valid ChunkType (a 4-byte, all-ASCII-alphabetic code) and
every payload below the `u32` limit, parsing the serialization of
`Chunk::new(t, d)` succeeds and yields the identical chunk — in particular
identical `chunk_type`, `data`, `length` and `crc`. -/
theorem C1_roundtrip (t : ChunkType) (d : List Nat)
    (hlen : t.code.length = 4) (halpha : all_ascii_alphabetic t.code = true)
    (hd : d.length < 4294967296) :
    ∃ c, Chunk.new t d = some c ∧ Chunk.parse (Chunk.as_bytes c) = Except.ok c ∧
      c.chunk_type = t ∧ c.chunk_data = d ∧ c.length = d.length := by
  obtain ⟨code⟩ := t
  refine ⟨_, new_eq _ _ hd, ?_, rfl, rfl, rfl⟩
  have hpd := parse_decomposed code d (Chunk.get_checksum d code) hlen halpha hd (crc32_lt _)
  rw [if_pos rfl] at hpd
  simpa [Chunk.as_bytes, ChunkType.bytes] using hpd

/-- Witness for C1: chunk type "RuSt" with payload [1, 2, 3]. -/
theorem C1_roundtrip_witness :
    ∃ c, Chunk.new ⟨[82, 117, 83, 116]⟩ [1, 2, 3] = some c ∧
      Chunk.parse (Chunk.as_bytes c) = Except.ok c ∧
      c.chunk_type = ⟨[82, 117, 83, 116]⟩ ∧ c.chunk_data = [1, 2, 3] ∧
      c.length = [1, 2, 3].length :=
  C1_roundtrip ⟨[82, 117, 83, 116]⟩ [1, 2, 3] rfl (by decide) (by decide)

/-- C2: a chunk built by `Chunk::new(t, d)` has `length` equal to the byte
length of the data and `crc` equal to CRC-32/ISO-HDLC over the data followed
by the type code — data first, type bytes appended.  The last conjunct checks
the embedded `crc32` against the CRC-32/ISO-HDLC check value (the checksum of
the ASCII bytes of "123456789" is 0xCBF43926), pinning down the polynomial. -/
theorem C2_new_invariant (t : ChunkType) (d : List Nat) (c : Chunk)
    (h : Chunk.new t d = some c) :
    c.length = d.length ∧ c.crc = crc32 (d ++ t.bytes) ∧
    crc32 [49, 50, 51, 52, 53, 54, 55, 56, 57] = 0xCBF43926 := by
  unfold Chunk.new at h
  split at h
  · injection h with h2
    subst h2
    exact ⟨rfl, rfl, by decide⟩
  · cases h

/-- Witness for C2: chunk type "RuSt" with the empty payload. -/
theorem C2_new_invariant_witness :
    ({ chunk_type := ⟨[82, 117, 83, 116]⟩
       chunk_data := []
       length := 0
       crc := 3565422908 } : Chunk).length = 0 ∧
    ({ chunk_type := ⟨[82, 117, 83, 116]⟩
       chunk_data := []
       length := 0
       crc := 3565422908 } : Chunk).crc = crc32 ([] ++ ChunkType.bytes ⟨[82, 117, 83, 116]⟩) ∧
    crc32 [49, 50, 51, 52, 53, 54, 55, 56, 57] = 0xCBF43926 :=
  C2_new_invariant ⟨[82, 117, 83, 116]⟩ [] _ (by decide)

/-- C3: `parse` recomputes the checksum over payload then type code and
compares it with the declared CRC in the trailing 4 bytes.  First conjunct: a
chunk is only ever produced with `crc` equal to the recomputed checksum of its
own payload and type code.  Second conjunct: on any well-formed buffer whose
declared CRC differs from the recomputed checksum, `parse` fails with
`ChecksumMismatch`. -/
theorem C3_checksum_gate :
    (∀ buf c, Chunk.parse buf = Except.ok c →
      c.crc = Chunk.get_checksum c.chunk_data c.chunk_type.bytes) ∧
    (∀ code d declared, code.length = 4 → all_ascii_alphabetic code = true →
      d.length < 4294967296 → declared < 4294967296 →
      declared ≠ Chunk.get_checksum d code →
      Chunk.parse (u32_to_be_bytes d.length ++ code ++ d ++ u32_to_be_bytes declared) =
        Except.error FormatError.ChecksumMismatch) := by
  constructor
  · intro buf c h
    simp only [Chunk.parse] at h
    split at h
    · cases h
    · split at h
      · cases h
      · split at h
        · cases h
        · split at h
          · injection h with h2
            subst h2
            assumption
          · cases h
  · intro code d declared hlen halpha hd hdecl hne
    rw [parse_decomposed code d declared hlen halpha hd hdecl, if_neg hne]

/-- Witness for C3: type "RuSt", empty payload, declared CRC 0 (the checksum
of the type code alone is 3565422908, so the declared value mismatches). -/
theorem C3_checksum_gate_witness :
    Chunk.parse (u32_to_be_bytes ([] : List Nat).length ++ [82, 117, 83, 116] ++ [] ++
        u32_to_be_bytes 0) = Except.error FormatError.ChecksumMismatch :=
  C3_checksum_gate.2 [82, 117, 83, 116] [] 0 rfl (by decide) (by decide) (by decide) (by decide)

/-- C4: serialization produces exactly length (4 bytes, big-endian), type
code (4 bytes), payload, crc (4 bytes, big-endian), in that order; for a
chunk satisfying the construction invariants the total size is 12 plus the
length.  The conjuncts also record that the 4-byte fields really are
big-endian `u32` encodings (they decode back with `be_bytes_to_u32`). -/
theorem C4_serialize_layout (c : Chunk)
    (hinv : c.length = c.chunk_data.length) (hcode : c.chunk_type.code.length = 4) :
    Chunk.as_bytes c =
      u32_to_be_bytes c.length ++ c.chunk_type.bytes ++ c.chunk_data ++ u32_to_be_bytes c.crc ∧
    (u32_to_be_bytes c.length).length = 4 ∧
    (u32_to_be_bytes c.crc).length = 4 ∧
    (c.length < 4294967296 → be_bytes_to_u32 (u32_to_be_bytes c.length) = c.length) ∧
    (c.crc < 4294967296 → be_bytes_to_u32 (u32_to_be_bytes c.crc) = c.crc) ∧
    (Chunk.as_bytes c).length = 12 + c.length := by
  refine ⟨rfl, rfl, rfl, be_of_u32 _, be_of_u32 _, ?_⟩
  simp [Chunk.as_bytes, List.length_append, u32_to_be_bytes_len, ChunkType.bytes, hcode, hinv]
  omega

/-- Witness for C4: a concrete chunk with type "RuSt" and payload [9]. -/
theorem C4_serialize_layout_witness :
    Chunk.as_bytes { chunk_type := ⟨[82, 117, 83, 116]⟩
                     chunk_data := [9]
                     length := 1
                     crc := 7 } =
      u32_to_be_bytes 1 ++ ChunkType.bytes ⟨[82, 117, 83, 116]⟩ ++ [9] ++ u32_to_be_bytes 7 ∧
    (u32_to_be_bytes 1).length = 4 ∧
    (u32_to_be_bytes 7).length = 4 ∧
    ((1 : Nat) < 4294967296 → be_bytes_to_u32 (u32_to_be_bytes 1) = 1) ∧
    ((7 : Nat) < 4294967296 → be_bytes_to_u32 (u32_to_be_bytes 7) = 7) ∧
    (Chunk.as_bytes { chunk_type := ⟨[82, 117, 83, 116]⟩
                      chunk_data := [9]
                      length := 1
                      crc := 7 }).length = 12 + 1 :=
  C4_serialize_layout { chunk_type := ⟨[82, 117, 83, 116]⟩
                        chunk_data := [9]
                        length := 1
                        crc := 7 } rfl rfl

/-- C5: `ChunkType::try_from` on four bytes succeeds exactly when every byte
is ASCII alphabetic (65–90 or 97–122); on success the stored code is the
input unchanged, and in every other case the result is the
`IsNotAlphabetic` error. -/
theorem C5_from_bytes_gate (b0 b1 b2 b3 : Nat) :
    (ChunkType.try_from [b0, b1, b2, b3] = Except.ok ⟨[b0, b1, b2, b3]⟩ ↔
      (((65 ≤ b0 ∧ b0 ≤ 90) ∨ (97 ≤ b0 ∧ b0 ≤ 122)) ∧
       ((65 ≤ b1 ∧ b1 ≤ 90) ∨ (97 ≤ b1 ∧ b1 ≤ 122)) ∧
       ((65 ≤ b2 ∧ b2 ≤ 90) ∨ (97 ≤ b2 ∧ b2 ≤ 122)) ∧
       ((65 ≤ b3 ∧ b3 ≤ 90) ∨ (97 ≤ b3 ∧ b3 ≤ 122)))) ∧
    (ChunkType.try_from [b0, b1, b2, b3] = Except.ok ⟨[b0, b1, b2, b3]⟩ ∨
      ChunkType.try_from [b0, b1, b2, b3] = Except.error ChunkTypeErrors.IsNotAlphabetic) := by
  have halpha := all_alpha_iff b0 b1 b2 b3
  unfold ChunkType.try_from
  by_cases h : all_ascii_alphabetic [b0, b1, b2, b3] = true
  · rw [if_pos h]
    exact ⟨⟨fun _ => halpha.mp h, fun _ => rfl⟩, Or.inl rfl⟩
  · rw [if_neg h]
    exact ⟨⟨fun hc => absurd hc (by simp), fun hp => absurd (halpha.mpr hp) h⟩, Or.inr rfl⟩

/-- Witness for C5 at the bytes of "Ru1t" (the byte 49 is the digit '1'). -/
theorem C5_from_bytes_gate_witness :
    (ChunkType.try_from [82, 117, 49, 116] = Except.ok ⟨[82, 117, 49, 116]⟩ ↔
      (((65 ≤ 82 ∧ 82 ≤ 90) ∨ (97 ≤ 82 ∧ 82 ≤ 122)) ∧
       ((65 ≤ 117 ∧ 117 ≤ 90) ∨ (97 ≤ 117 ∧ 117 ≤ 122)) ∧
       ((65 ≤ 49 ∧ 49 ≤ 90) ∨ (97 ≤ 49 ∧ 49 ≤ 122)) ∧
       ((65 ≤ 116 ∧ 116 ≤ 90) ∨ (97 ≤ 116 ∧ 116 ≤ 122)))) ∧
    (ChunkType.try_from [82, 117, 49, 116] = Except.ok ⟨[82, 117, 49, 116]⟩ ∨
      ChunkType.try_from [82, 117, 49, 116] = Except.error ChunkTypeErrors.IsNotAlphabetic) :=
  C5_from_bytes_gate 82 117 49 116

/-- C6: with the bits of a byte numbered 7 down to 0 starting at the most
significant end, "bit 5" is `Nat.testBit · 5`: `is_critical` holds iff bit 5
of code byte 0 is clear, `is_public` iff bit 5 of byte 1 is clear,
`is_reserved_bit_valid` iff bit 5 of byte 2 is clear, `is_safe_to_copy` iff
bit 5 of byte 3 is set, and `is_valid` coincides with
`is_reserved_bit_valid`; the stated values at "RuSt" and "Rust" hold. -/
theorem C6_bit_properties (b0 b1 b2 b3 : Nat) :
    (ChunkType.is_critical ⟨[b0, b1, b2, b3]⟩ = true ↔ b0.testBit 5 = false) ∧
    (ChunkType.is_public ⟨[b0, b1, b2, b3]⟩ = true ↔ b1.testBit 5 = false) ∧
    (ChunkType.is_reserved_bit_valid ⟨[b0, b1, b2, b3]⟩ = true ↔ b2.testBit 5 = false) ∧
    (ChunkType.is_safe_to_copy ⟨[b0, b1, b2, b3]⟩ = true ↔ b3.testBit 5 = true) ∧
    (ChunkType.is_valid ⟨[b0, b1, b2, b3]⟩ = ChunkType.is_reserved_bit_valid ⟨[b0, b1, b2, b3]⟩) ∧
    (ChunkType.is_critical ⟨[82, 117, 83, 116]⟩ = true ∧
     ChunkType.is_public ⟨[82, 117, 83, 116]⟩ = false ∧
     ChunkType.is_reserved_bit_valid ⟨[82, 117, 83, 116]⟩ = true ∧
     ChunkType.is_safe_to_copy ⟨[82, 117, 83, 116]⟩ = true ∧
     ChunkType.is_valid ⟨[82, 117, 83, 116]⟩ = true) ∧
    (ChunkType.is_reserved_bit_valid ⟨[82, 117, 115, 116]⟩ = false ∧
     ChunkType.is_valid ⟨[82, 117, 115, 116]⟩ = false) := by
  refine ⟨?_, ?_, ?_, ?_, rfl, by decide, by decide⟩
  · show (b0 / 32 % 2 == 0) = true ↔ Nat.testBit b0 5 = false
    simp [Nat.testBit_to_div_mod]
  · show (b1 / 32 % 2 == 0) = true ↔ Nat.testBit b1 5 = false
    simp [Nat.testBit_to_div_mod]
  · show (b2 / 32 % 2 == 0) = true ↔ Nat.testBit b2 5 = false
    simp [Nat.testBit_to_div_mod]
  · show (b3 / 32 % 2 == 1) = true ↔ Nat.testBit b3 5 = true
    simp [Nat.testBit_to_div_mod]

/-- Witness for C6 at the bytes of "RuSt". -/
theorem C6_bit_properties_witness :
    (ChunkType.is_critical ⟨[82, 117, 83, 116]⟩ = true ↔ Nat.testBit 82 5 = false) ∧
    (ChunkType.is_public ⟨[82, 117, 83, 116]⟩ = true ↔ Nat.testBit 117 5 = false) ∧
    (ChunkType.is_reserved_bit_valid ⟨[82, 117, 83, 116]⟩ = true ↔ Nat.testBit 83 5 = false) ∧
    (ChunkType.is_safe_to_copy ⟨[82, 117, 83, 116]⟩ = true ↔ Nat.testBit 116 5 = true) ∧
    (ChunkType.is_valid ⟨[82, 117, 83, 116]⟩ = ChunkType.is_reserved_bit_valid ⟨[82, 117, 83, 116]⟩) ∧
    (ChunkType.is_critical ⟨[82, 117, 83, 116]⟩ = true ∧
     ChunkType.is_public ⟨[82, 117, 83, 116]⟩ = false ∧
     ChunkType.is_reserved_bit_valid ⟨[82, 117, 83, 116]⟩ = true ∧
     ChunkType.is_safe_to_copy ⟨[82, 117, 83, 116]⟩ = true ∧
     ChunkType.is_valid ⟨[82, 117, 83, 116]⟩ = true) ∧
    (ChunkType.is_reserved_bit_valid ⟨[82, 117, 115, 116]⟩ = false ∧
     ChunkType.is_valid ⟨[82, 117, 115, 116]⟩ = false) :=
  C6_bit_properties 82 117 83 116

/-- C7 counterexample: on the 2-byte input "Ru" the claim says `from_str`
returns a validation error and no ChunkType; instead the source's `s[0..4]`
slice indexing panics (modelled as `none`), so no error value is ever
returned. -/
theorem C7_from_str_short_counterexample :
    ChunkType.from_str [82, 117] = none ∧
    ChunkType.from_str [82, 117] ≠ some (Except.error ChunkTypeErrors.IsNotAlphabetic) := by
  refine ⟨rfl, ?_⟩
  intro h
  rw [show ChunkType.from_str [82, 117] = none from rfl] at h
  cases h

/-- C7 amended: on an input of fewer than 4 bytes `from_str` panics (the
`s[0..4]` slice indexing is out of bounds) and produces no ChunkType — it
does not return a validation error; on 4 bytes or more it takes the first 4
bytes and applies the same alphabetic check as `try_from`. -/
theorem C7_from_str_amended (s : List Nat) :
    (s.length < 4 → ChunkType.from_str s = none) ∧
    (4 ≤ s.length → ChunkType.from_str s = some (ChunkType.try_from (s.take 4))) := by
  constructor
  · intro h
    unfold ChunkType.from_str
    rw [if_neg (by omega)]
  · intro h
    simp only [ChunkType.from_str, ChunkType.try_from, if_pos h]
    by_cases ha : all_ascii_alphabetic (s.take 4) = true
    · simp [ha]
    · simp [ha]

/-- Witness for the amended C7 at the 5-byte string "RuStx". -/
theorem C7_from_str_amended_witness :
    ChunkType.from_str [82, 117, 83, 116, 120] =
      some (ChunkType.try_from ([82, 117, 83, 116, 120].take 4)) :=
  (C7_from_str_amended [82, 117, 83, 116, 120]).2 (by decide)

/-- C8: `data_as_string` interprets every payload byte as the character of
equal scalar value and always succeeds: the failure case is possible exactly
when some byte has no valid character, and no byte value below 256 lacks
one. -/
theorem C8_data_as_string (c : Chunk) :
    Chunk.data_as_string c =
      Except.ok (String.mk (c.chunk_data.map (fun b => Char.ofNat (b % 256)))) ∧
    ((∃ e, Chunk.data_as_string c = Except.error e) ↔
      ∃ b ∈ c.chunk_data, ¬ Nat.isValidChar (b % 256)) := by
  refine ⟨rfl, ?_, ?_⟩
  · rintro ⟨e, h⟩
    rw [show Chunk.data_as_string c =
      Except.ok (String.mk (c.chunk_data.map (fun b => Char.ofNat (b % 256)))) from rfl] at h
    cases h
  · rintro ⟨b, _, hv⟩
    exact absurd (show Nat.isValidChar (b % 256) from Or.inl (by omega)) hv

/-- Witness for C8 at a chunk whose payload is the ASCII bytes of "Hi". -/
theorem C8_data_as_string_witness :
    Chunk.data_as_string { chunk_type := ⟨[82, 117, 83, 116]⟩
                           chunk_data := [72, 105]
                           length := 2
                           crc := 0 } =
      Except.ok (String.mk ([72, 105].map (fun b => Char.ofNat (b % 256)))) ∧
    ((∃ e, Chunk.data_as_string { chunk_type := ⟨[82, 117, 83, 116]⟩
                                  chunk_data := [72, 105]
                                  length := 2
                                  crc := 0 } = Except.error e) ↔
      ∃ b ∈ [72, 105], ¬ Nat.isValidChar (b % 256)) :=
  C8_data_as_string { chunk_type := ⟨[82, 117, 83, 116]⟩
                      chunk_data := [72, 105]
                      length := 2
                      crc := 0 }

/-- C9 (evaluation of the code at the claim's input): `Chunk::new` with type
"RuSt" and the 42-byte secret-message payload yields `length` 42 but `crc`
3492869447 — the CRC-32/ISO-HDLC checksum of payload followed by type code —
whereas the claim (and the repository's own tests) state 2882656334, the
checksum of type code followed by payload. -/
theorem C9_secret_chunk_eval :
    (Chunk.new ⟨[82, 117, 83, 116]⟩ secret_message_bytes).map Chunk.length = some 42 ∧
    (Chunk.new ⟨[82, 117, 83, 116]⟩ secret_message_bytes).map Chunk.crc = some 3492869447 ∧
    (3492869447 : Nat) ≠ 2882656334 := by
  have hlen : secret_message_bytes.length < 4294967296 := by
    simp [secret_message_bytes]
  have hcrc : Chunk.get_checksum secret_message_bytes (ChunkType.bytes ⟨[82, 117, 83, 116]⟩) =
      3492869447 := by
    unfold Chunk.get_checksum
    rw [show ChunkType.bytes ⟨[82, 117, 83, 116]⟩ = [82, 117, 83, 116] from rfl]
    exact crc_secret
  rw [new_eq ⟨[82, 117, 83, 116]⟩ secret_message_bytes hlen]
  refine ⟨?_, ?_, by omega⟩
  · show some secret_message_bytes.length = some 42
    rw [show secret_message_bytes.length = 42 by simp [secret_message_bytes]]
  · show some (Chunk.get_checksum secret_message_bytes (ChunkType.bytes ⟨[82, 117, 83, 116]⟩)) =
      some 3492869447
    exact congrArg some hcrc

/-- C10: for a valid 4-byte ChunkType, `Chunk::new` on the empty payload has
length 0, crc equal to the CRC-32/ISO-HDLC checksum of the 4 code bytes
alone, and serializes to exactly 12 bytes: four zero bytes, the code bytes,
and the 4 big-endian crc bytes. -/
theorem C10_empty_payload (t : ChunkType)
    (hlen : t.code.length = 4) (halpha : all_ascii_alphabetic t.code = true) :
    ∃ c, Chunk.new t [] = some c ∧ c.length = 0 ∧ c.crc = crc32 t.code ∧
      Chunk.as_bytes c = [0, 0, 0, 0] ++ t.code ++ u32_to_be_bytes (crc32 t.code) ∧
      (Chunk.as_bytes c).length = 12 := by
  obtain ⟨code⟩ := t
  refine ⟨_, new_eq _ _ (by decide), rfl, ?_, ?_, ?_⟩
  · show Chunk.get_checksum [] (ChunkType.bytes ⟨code⟩) = crc32 code
    simp [Chunk.get_checksum, ChunkType.bytes]
  · show Chunk.as_bytes _ = _
    simp [Chunk.as_bytes, ChunkType.bytes, Chunk.get_checksum]
    rfl
  · have hl : code.length = 4 := hlen
    simp [Chunk.as_bytes, List.length_append, u32_to_be_bytes_len, ChunkType.bytes]
    omega

/-- Witness for C10 at chunk type "RuSt". -/
theorem C10_empty_payload_witness :
    ∃ c, Chunk.new ⟨[82, 117, 83, 116]⟩ [] = some c ∧ c.length = 0 ∧
      c.crc = crc32 (ChunkType.code ⟨[82, 117, 83, 116]⟩) ∧
      Chunk.as_bytes c = [0, 0, 0, 0] ++ ChunkType.code ⟨[82, 117, 83, 116]⟩ ++
        u32_to_be_bytes (crc32 (ChunkType.code ⟨[82, 117, 83, 116]⟩)) ∧
      (Chunk.as_bytes c).length = 12 :=
  C10_empty_payload ⟨[82, 117, 83, 116]⟩ rfl (by decide)

end Pngme
